import Mathlib

/-!
Verification of the inventory/sales application (src/app.py).

The pure core of the application is embedded shallowly:
tables are lists of records, Python dynamic values that reach the
numeric-coercion helpers are an inductive `PyVal`, money amounts are `ℚ`,
and every source of randomness or wall-clock time (`uuid.uuid4()`,
`datetime.now()`) is passed in as an explicit parameter.
-/

namespace AppMartin

/-- A Python dynamic value as it can reach `parse_price` / `clean_input`:
a string, an int, a float (embedded as an exact rational), `None`, or a
value of any other type. -/
inductive PyVal where
  | PStr (s : String)
  | PInt (n : Int)
  | PFloat (q : ℚ)
  | PNone
  | POther
deriving DecidableEq

/-- Model of Python `value.replace('.', '')`: delete every period. -/
def removeDots (s : String) : String :=
  String.mk (s.data.filter (fun c => c ≠ '.'))

/-- Model of Python `value.replace(',', '.')`: turn every comma into a period. -/
def commaToDot (s : String) : String :=
  String.mk (s.data.map (fun c => if c = ',' then '.' else c))

/-- Digits to a natural number, most significant first. -/
def digitsToNat (cs : List Char) : Nat :=
  cs.foldl (fun a c => a * 10 + (c.toNat - 48)) 0

/-- Optional exponent part of a Python float literal: empty, or `e`/`E`, an
optional sign and a nonempty digit string. The running value is kept as a
numerator/denominator pair so that all parsing arithmetic stays in `Int` and
`Nat`; the exponent scales the numerator or the denominator by the
corresponding power of ten. -/
def parseExpPart (p : Int × Nat) (cs : List Char) : Option (Int × Nat) :=
  match cs with
  | [] => some p
  | e :: rest =>
    if e = 'e' ∨ e = 'E' then
      let (neg, rest2) : Bool × List Char :=
        match rest with
        | '+' :: r => (false, r)
        | '-' :: r => (true, r)
        | r => (false, r)
      if rest2 ≠ [] ∧ rest2.all Char.isDigit then
        some
          (if neg then (p.1, p.2 * 10 ^ digitsToNat rest2)
           else (p.1 * 10 ^ digitsToNat rest2, p.2))
      else none
    else none

/-- Mantissa (after an optional sign) of a Python float literal:
`D+`, `D+.D*` or `.D+`, followed by the optional exponent; the digits before
and after the period denote the fraction over the matching power of ten. -/
def parseMantissa (cs : List Char) : Option (Int × Nat) :=
  let (ip, rest) := cs.span Char.isDigit
  match rest with
  | '.' :: rest2 =>
    let (fp, rest3) := rest2.span Char.isDigit
    if ip = [] ∧ fp = [] then none
    else parseExpPart ((digitsToNat (ip ++ fp) : Int), 10 ^ fp.length) rest3
  | _ =>
    if ip = [] then none else parseExpPart ((digitsToNat ip : Int), 1) rest

/-- Numerator/denominator form of the Python builtin `float` applied to a
string (an external collaborator of the repository code): strip surrounding
whitespace and read an optional sign and a decimal literal with optional
fraction and exponent; `none` models `ValueError`. Out of modeled scope:
`inf`/`nan` keywords and digit-group underscores. -/
def pyFloatParts (s : String) : Option (Int × Nat) :=
  let cs := ((s.data.dropWhile Char.isWhitespace).reverse.dropWhile Char.isWhitespace).reverse
  match cs with
  | '+' :: rest => parseMantissa rest
  | '-' :: rest => (parseMantissa rest).map (fun p => (-p.1, p.2))
  | rest => parseMantissa rest

/-- Model of the Python builtin `float` on strings: the exact rational value
of the parsed literal. -/
def pyFloatOfString (s : String) : Option ℚ :=
  (pyFloatParts s).map (fun p => (p.1 : ℚ) / (p.2 : ℚ))

/-- Embedding of `parse_price` (src/app.py lines 133-144): non-(str|float|int)
input returns `0.0`; a string has its periods deleted and its commas turned
into periods and is then parsed as a float, any failure giving `0.0`;
numeric input is returned as a float. Totality of this function is the
embedding of the source's catch-all `except: return 0.0`. -/
def parse_price (value : PyVal) : ℚ :=
  match value with
  | .PStr s => (pyFloatOfString (commaToDot (removeDots s))).getD 0
  | .PInt n => (n : ℚ)
  | .PFloat q => q
  | .PNone => 0
  | .POther => 0

/-- Transliteration pairs for the Latin accented letters and eñes that occur
in this application's data. -/
def unidecodeTable : List (Char × Char) :=
  [('á', 'a'), ('é', 'e'), ('í', 'i'), ('ó', 'o'), ('ú', 'u'), ('ü', 'u'),
   ('ñ', 'n'), ('Á', 'A'), ('É', 'E'), ('Í', 'I'), ('Ó', 'O'), ('Ú', 'U'),
   ('Ü', 'U'), ('Ñ', 'N')]

/-- Model of one character's image under `unidecode.unidecode` (an external
library): ASCII characters map to themselves; the accented letters of
`unidecodeTable` map to their base letters; any other character is dropped
(unidecode's unmappable-character behavior). -/
def unidecodeChar (c : Char) : List Char :=
  if c.toNat < 128 then [c]
  else
    match unidecodeTable.find? (fun p => p.1 == c) with
    | some p => [p.2]
    | none => []

/-- Embedding of `clean_input` (src/app.py lines 126-131): non-string input
yields `""`; a string is transliterated to ASCII (`unidecode`) and upper-cased
(`Char.toUpper` agrees with Python `str.upper` on the ASCII output of the
transliteration). -/
def clean_input (v : PyVal) : String :=
  match v with
  | .PStr s => String.mk (((s.data.map unidecodeChar).flatten).map Char.toUpper)
  | _ => ""

/-- Embedding of `generar_sku` (src/app.py lines 184-195). The parameter `u`
models the character stream of `str(uuid.uuid4())` for this call; the input
name is `none` for Python `None`/`NaN`. An empty or absent name yields the
first 6 characters of the uuid upper-cased; otherwise the cleaned name's
alphabetic characters (first 3) and all of its digits are concatenated,
then `-` and the first 3 uuid characters upper-cased. -/
def generar_sku (nombre : Option String) (u : List Char) : String :=
  match nombre with
  | none => String.mk ((u.take 6).map Char.toUpper)
  | some n =>
    if n = "" then String.mk ((u.take 6).map Char.toUpper)
    else
      let nombre_limpio := clean_input (.PStr n)
      let letras := String.mk ((nombre_limpio.data.filter Char.isAlpha).take 3)
      let numeros := String.mk (nombre_limpio.data.filter Char.isDigit)
      letras ++ numeros ++ "-" ++ String.mk ((u.take 3).map Char.toUpper)

/-- One row of the Inventario table, after `load_data` has coerced
`CANTIDAD_ACTUAL` to an int. `COSTO_UNITARIO` is kept as a dynamic value
because `registrar_venta` re-coerces it through `parse_price` itself. -/
structure InvRecord where
  id_producto : String
  codigo_sku : String
  nombre_producto : String
  cantidad_actual : Int
  costo_unitario : PyVal
  precio_base : PyVal
  precio_publico : PyVal
  ubicacion_fisica : String
deriving DecidableEq

/-- One row of the Ventas table, as built by `registrar_venta`. -/
structure SaleRecord where
  id_venta : String
  fecha_hora : String
  codigo_sku_vendido : String
  nombre_producto_vendido : String
  cantidad_unidades : Int
  tipo_cliente : String
  precio_venta_final : ℚ
  costo_del_producto_total : ℚ
  gastos_directos_viaje : ℚ
  ganancia_neta : ℚ
  vendedor_registra : String
deriving DecidableEq

/-- Outcome of `registrar_venta`: the source signals failure by returning
`False` after an `st.error` (product not found) or an `st.warning` that
reports the available stock (insufficient stock). -/
inductive VentaResult where
  | ok
  | productNotFound
  | insufficientStock (disponible : Int)
deriving DecidableEq

/-- The in-place update `inventario_df.loc[idx, 'CANTIDAD_ACTUAL'] -= cantidad`
where `idx` is the index of the first row matching the name: decrement the
quantity of the first record whose `nombre_producto` equals `nombre`. -/
def decrementFirst (inv : List InvRecord) (nombre : String) (cantidad : Int) :
    List InvRecord :=
  match inv with
  | [] => []
  | r :: rs =>
    if r.nombre_producto = nombre then
      { r with cantidad_actual := r.cantidad_actual - cantidad } :: rs
    else
      r :: decrementFirst rs nombre cantidad

/-- Embedding of `registrar_venta` (src/app.py lines 198-246). The first
inventory row whose `NOMBRE_PRODUCTO` equals the argument exactly is the
transaction's product (`producto_index[0]`); missing product and insufficient
stock return both tables unchanged with a failure result. On success the sale
record (fresh id and timestamp passed in as `id_venta`, `fecha_hora`) is
prepended to the sales table and the matched row's quantity is decremented. -/
def registrar_venta (inv : List InvRecord) (ventas : List SaleRecord)
    (nombre_producto : String) (cantidad : Int) (tipo_cliente : String)
    (precio_final : ℚ) (gastos_viaje : ℚ) (vendedor : String)
    (id_venta : String) (fecha_hora : String) :
    List InvRecord × List SaleRecord × VentaResult :=
  match inv.find? (fun r => r.nombre_producto == nombre_producto) with
  | none => (inv, ventas, .productNotFound)
  | some producto =>
    if producto.cantidad_actual < cantidad then
      (inv, ventas, .insufficientStock producto.cantidad_actual)
    else
      let costo_unitario := parse_price producto.costo_unitario
      let costo_total_venta := costo_unitario * (cantidad : ℚ)
      let ganancia_neta := precio_final - costo_total_venta - gastos_viaje
      let registro : SaleRecord :=
        { id_venta := id_venta
          fecha_hora := fecha_hora
          codigo_sku_vendido := producto.codigo_sku
          nombre_producto_vendido := nombre_producto
          cantidad_unidades := cantidad
          tipo_cliente := tipo_cliente
          precio_venta_final := precio_final
          costo_del_producto_total := costo_total_venta
          gastos_directos_viaje := gastos_viaje
          ganancia_neta := ganancia_neta
          vendedor_registra := vendedor }
      (decrementFirst inv nombre_producto cantidad, registro :: ventas, .ok)

/-- Embedding of `eliminar_producto` (src/app.py lines 331-334): keep exactly
the rows whose `NOMBRE_PRODUCTO` differs from the given name. -/
def eliminar_producto (inv : List InvRecord) (nombre_producto : String) :
    List InvRecord :=
  inv.filter (fun r => r.nombre_producto ≠ nombre_producto)

/-- One row of an uploaded CSV in `mostrar_carga_masiva`, after the
required-columns check: the 7 inventory columns without `ID_PRODUCTO`.
`codigo_sku` is `none` when the cell is NaN. -/
structure ImportRow where
  codigo_sku : Option String
  nombre_producto : String
  cantidad_actual : Int
  costo_unitario : PyVal
  precio_base : PyVal
  precio_publico : PyVal
  ubicacion_fisica : String
deriving DecidableEq

/-- Model of Python `str.strip` on the strings occurring here: drop
surrounding whitespace. -/
def stripStr (s : String) : String :=
  String.mk (((s.data.dropWhile Char.isWhitespace).reverse.dropWhile
    Char.isWhitespace).reverse)

/-- The blank-SKU test of src/app.py line 400:
`pd.isna(row['CODIGO_SKU']) or str(row['CODIGO_SKU']).strip() == ''`. -/
def skuBlank (o : Option String) : Bool :=
  match o with
  | none => true
  | some s => stripStr s = ""

/-- One row's preparation in `mostrar_carga_masiva` (src/app.py lines
398-401): assign the fresh `ID_PRODUCTO` and generate a SKU when the SKU
cell is blank. `freshId` models `str(uuid.uuid4())[:8]`, `u` the uuid
stream for `generar_sku`. -/
def asignar_fila (row : ImportRow) (freshId : String) (u : List Char) :
    InvRecord :=
  { id_producto := freshId
    codigo_sku :=
      if skuBlank row.codigo_sku then generar_sku (some row.nombre_producto) u
      else row.codigo_sku.getD ""
    nombre_producto := row.nombre_producto
    cantidad_actual := row.cantidad_actual
    costo_unitario := row.costo_unitario
    precio_base := row.precio_base
    precio_publico := row.precio_publico
    ubicacion_fisica := row.ubicacion_fisica }

/-- The prepared import rows from position `i` on, each with its own fresh
id and uuid stream. -/
def asignadosFrom (i : Nat) (rows : List ImportRow) (freshId : Nat → String)
    (freshU : Nat → List Char) : List InvRecord :=
  match rows with
  | [] => []
  | r :: rs => asignar_fila r (freshId i) (freshU i) :: asignadosFrom (i + 1) rs freshId freshU

/-- The prepared import rows, each with its own fresh id and uuid stream. -/
def asignados (rows : List ImportRow) (freshId : Nat → String)
    (freshU : Nat → List Char) : List InvRecord :=
  asignadosFrom 0 rows freshId freshU

/-- Model of `DataFrame.drop_duplicates(subset=['NOMBRE_PRODUCTO'],
keep='last')`: keep a row exactly when no later row carries the same
`nombre_producto`; the kept rows stay in their original relative order. -/
def dedupKeepLast (inv : List InvRecord) : List InvRecord :=
  match inv with
  | [] => []
  | r :: rs =>
    if rs.any (fun x => x.nombre_producto == r.nombre_producto) then
      dedupKeepLast rs
    else
      r :: dedupKeepLast rs

/-- Embedding of the bulk-import merge of `mostrar_carga_masiva`
(src/app.py lines 398-409): prepare the uploaded rows (fresh ids,
generated SKUs for blank cells), append them after the existing inventory
rows, then drop duplicate `NOMBRE_PRODUCTO` keeping the last occurrence. -/
def carga_masiva_merge (existing : List InvRecord) (rows : List ImportRow)
    (freshId : Nat → String) (freshU : Nat → List Char) : List InvRecord :=
  dedupKeepLast (existing ++ asignados rows freshId freshU)

/-- Fixture: the spec's Widget product, 10 on hand at unit cost 5. -/
def wWidget : InvRecord :=
  { id_producto := "id1", codigo_sku := "WID-1", nombre_producto := "Widget",
    cantidad_actual := 10, costo_unitario := .PInt 5, precio_base := .PInt 0,
    precio_publico := .PInt 0, ubicacion_fisica := "shelf" }

/-- Fixture: the sale record produced by the spec's happy-path example. -/
def wSale33 : SaleRecord :=
  { id_venta := "v1", fecha_hora := "t1", codigo_sku_vendido := "WID-1",
    nombre_producto_vendido := "Widget", cantidad_unidades := 3,
    tipo_cliente := "Retail", precio_venta_final := 50,
    costo_del_producto_total := 15, gastos_directos_viaje := 2,
    ganancia_neta := 33, vendedor_registra := "Alice" }

/-- Fixture: first of two inventory rows sharing the name `Dup`, 2 on hand. -/
def wDup1 : InvRecord :=
  { id_producto := "d1", codigo_sku := "SKU-1", nombre_producto := "Dup",
    cantidad_actual := 2, costo_unitario := .PInt 1, precio_base := .PInt 0,
    precio_publico := .PInt 0, ubicacion_fisica := "a" }

/-- Fixture: second inventory row named `Dup`, 100 on hand. -/
def wDup2 : InvRecord :=
  { id_producto := "d2", codigo_sku := "SKU-2", nombre_producto := "Dup",
    cantidad_actual := 100, costo_unitario := .PInt 1, precio_base := .PInt 0,
    precio_publico := .PInt 0, ubicacion_fisica := "b" }

/-- Fixture: first of two existing inventory rows sharing the name `A`. -/
def rA1 : InvRecord :=
  { id_producto := "x1", codigo_sku := "KA-1", nombre_producto := "A",
    cantidad_actual := 1, costo_unitario := .PInt 1, precio_base := .PInt 1,
    precio_publico := .PInt 1, ubicacion_fisica := "p" }

/-- Fixture: second existing inventory row named `A`. -/
def rA2 : InvRecord :=
  { id_producto := "x2", codigo_sku := "KA-2", nombre_producto := "A",
    cantidad_actual := 9, costo_unitario := .PInt 2, precio_base := .PInt 2,
    precio_publico := .PInt 2, ubicacion_fisica := "q" }

/-- Fixture: existing inventory row named `X`. -/
def rX : InvRecord :=
  { id_producto := "ix", codigo_sku := "KX", nombre_producto := "X",
    cantidad_actual := 4, costo_unitario := .PInt 3, precio_base := .PInt 3,
    precio_publico := .PInt 3, ubicacion_fisica := "r" }

/-- Fixture: existing inventory row named `Y`. -/
def rY : InvRecord :=
  { id_producto := "iy", codigo_sku := "KY", nombre_producto := "Y",
    cantidad_actual := 5, costo_unitario := .PInt 4, precio_base := .PInt 4,
    precio_publico := .PInt 4, ubicacion_fisica := "s" }

/-- Fixture: an imported row named `X` with a non-blank SKU. -/
def impX : ImportRow :=
  { codigo_sku := some "NEW-X", nombre_producto := "X", cantidad_actual := 7,
    costo_unitario := .PInt 9, precio_base := .PInt 9, precio_publico := .PInt 9,
    ubicacion_fisica := "t" }

section Lemmas

/-- Upper-casing an ASCII character stays ASCII and never yields a lower-case
letter, checked over all 128 code points. -/
lemma toUpper_fin :
    ∀ i : Fin 128,
      ((Char.ofNat i.1).toUpper).toNat < 128 ∧
      ((Char.ofNat i.1).toUpper).isLower = false := by
  decide

/-- Upper-casing an ASCII character stays ASCII and never yields a lower-case
letter. -/
lemma toUpper_ascii (c : Char) (h : c.toNat < 128) :
    (c.toUpper).toNat < 128 ∧ (c.toUpper).isLower = false := by
  have h2 := toUpper_fin ⟨c.toNat, h⟩
  rwa [Char.ofNat_toNat] at h2

/-- Every character emitted by the unidecode model is ASCII. -/
lemma unidecodeChar_ascii (c : Char) : ∀ d ∈ unidecodeChar c, d.toNat < 128 := by
  intro d hd
  unfold unidecodeChar at hd
  by_cases h : c.toNat < 128
  · rw [if_pos h] at hd
    simp only [List.mem_singleton] at hd
    subst hd
    exact h
  · rw [if_neg h] at hd
    cases hfind : unidecodeTable.find? (fun p => p.1 == c) with
    | none => rw [hfind] at hd; simp at hd
    | some p =>
      rw [hfind] at hd
      simp only [List.mem_singleton] at hd
      subst hd
      have hmem := List.mem_of_find?_eq_some hfind
      have : ∀ q ∈ unidecodeTable, q.2.toNat < 128 := by decide
      exact this p hmem

end Lemmas

/-- C3: for every string input the price parser deletes every period, turns
every comma into a period and parses the result as a float; int and float
inputs are returned as floats; in particular `parse("2.000,50") = 2000.50`,
`parse("0") = 0.0` and `parse(1500) = 1500.0`. -/
theorem parse_price_pipeline :
    (∀ s : String,
      parse_price (.PStr s) = (pyFloatOfString (commaToDot (removeDots s))).getD 0) ∧
    (∀ n : Int, parse_price (.PInt n) = (n : ℚ)) ∧
    (∀ q : ℚ, parse_price (.PFloat q) = q) ∧
    parse_price (.PStr "2.000,50") = 2000.50 ∧
    parse_price (.PStr "0") = 0 ∧
    parse_price (.PInt 1500) = 1500 := by
  refine ⟨fun _ => rfl, fun _ => rfl, fun _ => rfl, ?_, ?_, ?_⟩
  · have h : pyFloatParts (commaToDot (removeDots "2.000,50")) = some (200050, 100) := by
      decide
    simp [parse_price, pyFloatOfString, h]
    norm_num
  · have h : pyFloatParts (commaToDot (removeDots "0")) = some (0, 1) := by decide
    simp [parse_price, pyFloatOfString, h]
  · show ((1500 : Int) : ℚ) = 1500
    norm_num

/-- C4: the price parser is a total function (the embedding of the source's
catch-all `except`), and every failure case — `None`, a value of unsupported
type, the empty string, or any string whose transformed form does not parse
as a float — yields exactly `0.0`. -/
theorem parse_price_never_raises :
    parse_price .PNone = 0 ∧
    parse_price .POther = 0 ∧
    parse_price (.PStr "") = 0 ∧
    (∀ s : String,
      pyFloatOfString (commaToDot (removeDots s)) = none →
      parse_price (.PStr s) = 0) := by
  refine ⟨rfl, rfl, by decide, ?_⟩
  intro s h
  simp [parse_price, h]

/-- Witness for C4 at the malformed string `"abc"`. -/
theorem parse_price_never_raises_witness :
    pyFloatOfString (commaToDot (removeDots "abc")) = none ∧
    parse_price (.PStr "abc") = 0 :=
  ⟨by decide, parse_price_never_raises.2.2.2 "abc" (by decide)⟩

/-- C5: the text normalizer yields an uppercase, diacritic-stripped (ASCII)
string on string input, the empty string on every non-string input, and in
particular maps `"Lámpara Azúl"` to `"LAMPARA AZUL"` and `123` to `""`. -/
theorem clean_input_normalizes :
    (∀ s : String, ∀ c ∈ (clean_input (.PStr s)).data,
      c.toNat < 128 ∧ c.isLower = false) ∧
    (∀ v : PyVal, (∀ s, v ≠ .PStr s) → clean_input v = "") ∧
    clean_input (.PStr "Lámpara Azúl") = "LAMPARA AZUL" ∧
    clean_input (.PInt 123) = "" := by
  refine ⟨?_, ?_, by decide, rfl⟩
  · intro s c hc
    obtain ⟨d, hd, rfl⟩ := List.mem_map.1 hc
    obtain ⟨ll, hll, hdll⟩ := List.mem_flatten.1 hd
    obtain ⟨e, _, rfl⟩ := List.mem_map.1 hll
    exact toUpper_ascii d (unidecodeChar_ascii e d hdll)
  · intro v hv
    cases v with
    | PStr s => exact absurd rfl (hv s)
    | PInt n => rfl
    | PFloat q => rfl
    | PNone => rfl
    | POther => rfl

/-- Witness for C5: the character `A` of the normalized form of `"Ámz"` is
ASCII and not lower-case. -/
theorem clean_input_normalizes_witness :
    'A' ∈ (clean_input (.PStr "Ámz")).data ∧
    ('A'.toNat < 128 ∧ 'A'.isLower = false) ∧
    clean_input (.PInt 7) = "" :=
  ⟨by decide, clean_input_normalizes.1 "Ámz" 'A' (by decide),
   clean_input_normalizes.2.1 (.PInt 7) (fun _ h => by cases h)⟩

/-- C6: for a non-empty name the SKU is the first 3 alphabetic characters of
the normalized name, then all of its digits, then a dash and the 3-character
upper-cased random token; the token consists of uppercase alphanumerics when
the uuid stream is lower-case hexadecimal; an empty or absent name yields the
6-character upper-cased random token; for `"Lámpara LED 12V"` the letters
part is `"LAM"` and the digits part is `"12"`. -/
theorem generar_sku_shape (n : String) (u : List Char)
    (hn : n ≠ "")
    (hu : ∀ c ∈ u, c ∈ "0123456789abcdef".data)
    (hlen : 3 ≤ u.length) :
    generar_sku (some n) u =
      String.mk (((clean_input (.PStr n)).data.filter Char.isAlpha).take 3) ++
      String.mk ((clean_input (.PStr n)).data.filter Char.isDigit) ++ "-" ++
      String.mk ((u.take 3).map Char.toUpper) ∧
    ((u.take 3).map Char.toUpper).length = 3 ∧
    (∀ c ∈ (u.take 3).map Char.toUpper, c.isUpper = true ∨ c.isDigit = true) ∧
    generar_sku none u = String.mk ((u.take 6).map Char.toUpper) ∧
    generar_sku (some "") u = String.mk ((u.take 6).map Char.toUpper) ∧
    String.mk (((clean_input (.PStr "Lámpara LED 12V")).data.filter Char.isAlpha).take 3) =
      "LAM" ∧
    String.mk ((clean_input (.PStr "Lámpara LED 12V")).data.filter Char.isDigit) = "12" := by
  refine ⟨by simp [generar_sku, hn], ?_, ?_, rfl, rfl, by decide, by decide⟩
  · simp only [List.length_map, List.length_take]
    omega
  · intro c hc
    obtain ⟨d, hd, rfl⟩ := List.mem_map.1 hc
    have hdu : d ∈ u := List.take_subset 3 u hd
    have hall : ∀ x ∈ "0123456789abcdef".data,
        (Char.toUpper x).isUpper = true ∨ (Char.toUpper x).isDigit = true := by
      decide
    exact hall d (hu d hdu)

/-- Witness for C6 at the name of the spec's example and a concrete
lower-case hexadecimal uuid stream. -/
theorem generar_sku_shape_witness :
    generar_sku (some "Lámpara LED 12V") ['a', '1', 'b', '2', 'c', '3', 'd', '4'] =
      "LAM12-A1B" ∧
    (∀ c ∈ ((['a', '1', 'b', '2', 'c', '3', 'd', '4'].take 3).map Char.toUpper),
      c.isUpper = true ∨ c.isDigit = true) :=
  ⟨by decide,
   (generar_sku_shape "Lámpara LED 12V" ['a', '1', 'b', '2', 'c', '3', 'd', '4']
     (by decide) (by decide) (by decide)).2.2.1⟩

/-- C8: deletion removes exactly the records whose name matches: no survivor
matches, every non-matching record survives, deleting an absent name is the
identity, and deletion is idempotent. -/
theorem eliminar_producto_exact_idempotent (inv : List InvRecord) (nombre : String) :
    (∀ r ∈ eliminar_producto inv nombre, r.nombre_producto ≠ nombre) ∧
    (∀ r ∈ inv, r.nombre_producto ≠ nombre → r ∈ eliminar_producto inv nombre) ∧
    ((∀ r ∈ inv, r.nombre_producto ≠ nombre) → eliminar_producto inv nombre = inv) ∧
    eliminar_producto (eliminar_producto inv nombre) nombre =
      eliminar_producto inv nombre := by
  refine ⟨?_, ?_, ?_, ?_⟩
  · intro r hr
    have := (List.mem_filter.1 hr).2
    simpa using this
  · intro r hr hne
    exact List.mem_filter.2 ⟨hr, by simpa using hne⟩
  · intro h
    apply List.filter_eq_self.2
    intro r hr
    simpa using h r hr
  · apply List.filter_eq_self.2
    intro r hr
    exact (List.mem_filter.1 hr).2

/-- Witness for C8: deleting `Y` keeps `X`; deleting the absent name `Z` is
the identity; deleting `Y` twice equals deleting it once. -/
theorem eliminar_producto_exact_idempotent_witness :
    rX ∈ eliminar_producto [rX, rY] "Y" ∧
    eliminar_producto [rX] "Z" = [rX] ∧
    eliminar_producto (eliminar_producto [rX, rY] "Y") "Y" =
      eliminar_producto [rX, rY] "Y" :=
  ⟨(eliminar_producto_exact_idempotent [rX, rY] "Y").2.1 rX (by decide) (by decide),
   (eliminar_producto_exact_idempotent [rX] "Z").2.2.1 (by decide),
   (eliminar_producto_exact_idempotent [rX, rY] "Y").2.2.2⟩

/-- Decrementing the first matching row of a list whose prefix does not
match rewrites the matched row in place and touches nothing else. -/
lemma decrementFirst_append (pre post : List InvRecord) (p : InvRecord)
    (n : String) (c : Int)
    (hpre : ∀ r ∈ pre, r.nombre_producto ≠ n) (hp : p.nombre_producto = n) :
    decrementFirst (pre ++ p :: post) n c =
      pre ++ { p with cantidad_actual := p.cantidad_actual - c } :: post := by
  induction pre with
  | nil => simp [decrementFirst, hp]
  | cons a as ih =>
    have ha : a.nombre_producto ≠ n := hpre a (by simp)
    simp only [List.cons_append, decrementFirst, if_neg ha, List.cons.injEq, true_and]
    exact ih (fun r hr => hpre r (by simp [hr]))

/-- C1: when a product with the given name exists and has enough stock, the
sale succeeds: the sales table gets a new record prepended whose total cost
is the parsed unit cost times the units, whose net profit is the final price
minus that cost minus the direct expenses, and whose SKU and name are taken
from the first matching inventory row; that row's quantity is decremented by
the units and every other row is unchanged. -/
theorem registrar_venta_happy_path
    (inv : List InvRecord) (ventas : List SaleRecord) (nombre : String)
    (cantidad : Int) (tipo : String) (precio gastos : ℚ)
    (vendedor idv fecha : String) (producto : InvRecord)
    (hfind : inv.find? (fun r => r.nombre_producto == nombre) = some producto)
    (hstock : cantidad ≤ producto.cantidad_actual)
    (hpos : 0 < cantidad) :
    ∃ pre post,
      inv = pre ++ producto :: post ∧
      (∀ r ∈ pre, r.nombre_producto ≠ nombre) ∧
      producto.nombre_producto = nombre ∧
      registrar_venta inv ventas nombre cantidad tipo precio gastos vendedor idv fecha =
        (pre ++ { producto with
            cantidad_actual := producto.cantidad_actual - cantidad } :: post,
         { id_venta := idv, fecha_hora := fecha,
           codigo_sku_vendido := producto.codigo_sku,
           nombre_producto_vendido := producto.nombre_producto,
           cantidad_unidades := cantidad,
           tipo_cliente := tipo,
           precio_venta_final := precio,
           costo_del_producto_total :=
             parse_price producto.costo_unitario * (cantidad : ℚ),
           gastos_directos_viaje := gastos,
           ganancia_neta :=
             precio - parse_price producto.costo_unitario * (cantidad : ℚ) - gastos,
           vendedor_registra := vendedor } :: ventas,
         .ok) := by
  obtain ⟨hpb, pre, post, rfl, hpre⟩ := List.find?_eq_some.1 hfind
  have hpn : producto.nombre_producto = nombre := by simpa using hpb
  refine ⟨pre, post, rfl, fun r hr => by simpa using hpre r hr, hpn, ?_⟩
  simp only [registrar_venta, hfind, if_neg (not_lt.2 hstock)]
  rw [decrementFirst_append pre post producto nombre cantidad
    (fun r hr => by simpa using hpre r hr) hpn, hpn]

/-- Witness for C1: the spec's Widget example, yielding total cost 15, net
profit 33, and stock 7. -/
theorem registrar_venta_happy_path_witness :
    (∃ pre post,
      ([wWidget] : List InvRecord) = pre ++ wWidget :: post ∧
      (∀ r ∈ pre, r.nombre_producto ≠ "Widget") ∧
      wWidget.nombre_producto = "Widget" ∧
      registrar_venta [wWidget] [] "Widget" 3 "Retail" 50 2 "Alice" "v1" "t1" =
        (pre ++ { wWidget with
            cantidad_actual := wWidget.cantidad_actual - 3 } :: post,
         { id_venta := "v1", fecha_hora := "t1",
           codigo_sku_vendido := wWidget.codigo_sku,
           nombre_producto_vendido := wWidget.nombre_producto,
           cantidad_unidades := 3,
           tipo_cliente := "Retail",
           precio_venta_final := 50,
           costo_del_producto_total := parse_price wWidget.costo_unitario * (3 : ℚ),
           gastos_directos_viaje := 2,
           ganancia_neta := 50 - parse_price wWidget.costo_unitario * (3 : ℚ) - 2,
           vendedor_registra := "Alice" } :: [],
         .ok)) ∧
    registrar_venta [wWidget] [] "Widget" 3 "Retail" 50 2 "Alice" "v1" "t1" =
      ([{ wWidget with cantidad_actual := 7 }], [wSale33], .ok) := by
  refine ⟨registrar_venta_happy_path [wWidget] [] "Widget" 3 "Retail" 50 2 "Alice"
    "v1" "t1" wWidget (by decide) (by decide) (by decide), ?_⟩
  simp only [registrar_venta, wWidget, wSale33, decrementFirst, parse_price]
  norm_num

/-- C2: with no exactly-matching product name the sale fails with
product-not-found, and with insufficient stock it fails reporting the
available quantity; in both cases the inventory and sales tables are
returned unchanged. -/
theorem registrar_venta_failure_unchanged
    (inv : List InvRecord) (ventas : List SaleRecord) (nombre : String)
    (cantidad : Int) (tipo : String) (precio gastos : ℚ)
    (vendedor idv fecha : String) :
    ((∀ r ∈ inv, r.nombre_producto ≠ nombre) →
      registrar_venta inv ventas nombre cantidad tipo precio gastos vendedor idv fecha =
        (inv, ventas, .productNotFound)) ∧
    (∀ producto,
      inv.find? (fun r => r.nombre_producto == nombre) = some producto →
      producto.cantidad_actual < cantidad →
      registrar_venta inv ventas nombre cantidad tipo precio gastos vendedor idv fecha =
        (inv, ventas, .insufficientStock producto.cantidad_actual)) := by
  constructor
  · intro h
    have hnone : inv.find? (fun r => r.nombre_producto == nombre) = none :=
      List.find?_eq_none.2 (fun x hx => by simpa using h x hx)
    simp [registrar_venta, hnone]
  · intro producto hfind hlt
    simp [registrar_venta, hfind, if_pos hlt]

/-- Witness for C2: the unknown-product and insufficient-stock examples of
the spec, both leaving the tables unchanged. -/
theorem registrar_venta_failure_unchanged_witness :
    registrar_venta [wWidget] [] "Nonexistent" 1 "Retail" 50 2 "Alice" "v1" "t1" =
      ([wWidget], [], .productNotFound) ∧
    registrar_venta [wWidget] [] "Widget" 11 "Retail" 50 2 "Alice" "v1" "t1" =
      ([wWidget], [], .insufficientStock 10) :=
  ⟨(registrar_venta_failure_unchanged [wWidget] [] "Nonexistent" 1 "Retail" 50 2
      "Alice" "v1" "t1").1 (by decide),
   (registrar_venta_failure_unchanged [wWidget] [] "Widget" 11 "Retail" 50 2
      "Alice" "v1" "t1").2 wWidget (by decide) (by decide)⟩

/-- C9: if every inventory quantity is non-negative and the requested units
are positive, then after `registrar_venta` — success or failure — every
inventory quantity is still non-negative. -/
theorem registrar_venta_stock_nonneg
    (inv : List InvRecord) (ventas : List SaleRecord) (nombre : String)
    (cantidad : Int) (tipo : String) (precio gastos : ℚ)
    (vendedor idv fecha : String)
    (hq : ∀ r ∈ inv, 0 ≤ r.cantidad_actual) (hpos : 0 < cantidad) :
    ∀ r ∈ (registrar_venta inv ventas nombre cantidad tipo precio gastos
        vendedor idv fecha).1,
      0 ≤ r.cantidad_actual := by
  cases hfind : inv.find? (fun r => r.nombre_producto == nombre) with
  | none =>
    simpa [registrar_venta, hfind] using hq
  | some producto =>
    by_cases hlt : producto.cantidad_actual < cantidad
    · simpa [registrar_venta, hfind, if_pos hlt] using hq
    · obtain ⟨hpb, pre, post, hsplit, hpre⟩ := List.find?_eq_some.1 hfind
      have hpn : producto.nombre_producto = nombre := by simpa using hpb
      intro r hr
      simp only [registrar_venta, hfind, if_neg hlt] at hr
      rw [hsplit, decrementFirst_append pre post producto nombre cantidad
        (fun x hx => by simpa using hpre x hx) hpn] at hr
      rcases List.mem_append.1 hr with hmem | hmem
      · exact hq r (by rw [hsplit]; exact List.mem_append_left _ hmem)
      · rcases List.mem_cons.1 hmem with rfl | hmem
        · have h1 : 0 ≤ producto.cantidad_actual :=
            hq producto (by rw [hsplit]; simp)
          simp only [not_lt] at hlt
          simp only []
          omega
        · exact hq r (by rw [hsplit]; simp [hmem])

/-- Witness for C9 at the Widget example: the decremented Widget row is in
the resulting inventory and its quantity is still non-negative. -/
theorem registrar_venta_stock_nonneg_witness :
    0 ≤ ({ wWidget with cantidad_actual := 7 } : InvRecord).cantidad_actual :=
  registrar_venta_stock_nonneg [wWidget] [] "Widget" 3 "Retail" 50 2 "Alice"
    "v1" "t1" (by decide) (by decide)
    { wWidget with cantidad_actual := 7 } (by decide)

/-- C10: with duplicate product names, the transaction is driven entirely by
the first matching row: stock is validated against its quantity, the SKU is
snapshotted from it, only it is decremented, and the rows after it — the
later duplicates included — are returned unchanged. -/
theorem registrar_venta_first_match
    (pre post : List InvRecord) (p : InvRecord) (ventas : List SaleRecord)
    (nombre : String) (cantidad : Int) (tipo : String) (precio gastos : ℚ)
    (vendedor idv fecha : String)
    (hpre : ∀ r ∈ pre, r.nombre_producto ≠ nombre)
    (hp : p.nombre_producto = nombre) :
    (p.cantidad_actual < cantidad →
      registrar_venta (pre ++ p :: post) ventas nombre cantidad tipo precio
          gastos vendedor idv fecha =
        (pre ++ p :: post, ventas, .insufficientStock p.cantidad_actual)) ∧
    (cantidad ≤ p.cantidad_actual →
      registrar_venta (pre ++ p :: post) ventas nombre cantidad tipo precio
          gastos vendedor idv fecha =
        (pre ++ { p with cantidad_actual := p.cantidad_actual - cantidad } :: post,
         { id_venta := idv, fecha_hora := fecha,
           codigo_sku_vendido := p.codigo_sku,
           nombre_producto_vendido := nombre,
           cantidad_unidades := cantidad,
           tipo_cliente := tipo,
           precio_venta_final := precio,
           costo_del_producto_total := parse_price p.costo_unitario * (cantidad : ℚ),
           gastos_directos_viaje := gastos,
           ganancia_neta :=
             precio - parse_price p.costo_unitario * (cantidad : ℚ) - gastos,
           vendedor_registra := vendedor } :: ventas,
         .ok)) := by
  have hfind : (pre ++ p :: post).find? (fun r => r.nombre_producto == nombre) =
      some p :=
    List.find?_eq_some.2
      ⟨by simp [hp], pre, post, rfl, fun a ha => by simpa using hpre a ha⟩
  constructor
  · intro hlt
    simp [registrar_venta, hfind, if_pos hlt]
  · intro hstock
    simp only [registrar_venta, hfind, if_neg (not_lt.2 hstock)]
    rw [decrementFirst_append pre post p nombre cantidad hpre hp]

/-- Witness for C10: a table with two rows named `Dup` (2 and 100 on hand).
Selling 5 fails with available quantity 2 although the later duplicate has
100; selling 1 decrements only the first row and snapshots its SKU. -/
theorem registrar_venta_first_match_witness :
    registrar_venta [wDup1, wDup2] [] "Dup" 5 "Retail" 50 2 "Alice" "v1" "t1" =
      ([wDup1, wDup2], [], .insufficientStock 2) ∧
    registrar_venta [wDup1, wDup2] [] "Dup" 1 "Retail" 50 2 "Alice" "v1" "t1" =
      ([{ wDup1 with cantidad_actual := wDup1.cantidad_actual - 1 }, wDup2],
       [{ id_venta := "v1", fecha_hora := "t1",
          codigo_sku_vendido := wDup1.codigo_sku,
          nombre_producto_vendido := "Dup",
          cantidad_unidades := 1,
          tipo_cliente := "Retail",
          precio_venta_final := 50,
          costo_del_producto_total := parse_price wDup1.costo_unitario * (1 : ℚ),
          gastos_directos_viaje := 2,
          ganancia_neta := 50 - parse_price wDup1.costo_unitario * (1 : ℚ) - 2,
          vendedor_registra := "Alice" }],
       .ok) :=
  ⟨(registrar_venta_first_match [] [wDup2] wDup1 [] "Dup" 5 "Retail" 50 2
      "Alice" "v1" "t1" (by simp) rfl).1 (by decide),
   (registrar_venta_first_match [] [wDup2] wDup1 [] "Dup" 1 "Retail" 50 2
      "Alice" "v1" "t1" (by simp) rfl).2 (by decide)⟩

/-- The prepared rows carry the names of the rows they come from: the
last-occurrence test is unaffected by id and SKU assignment. -/
lemma any_asignadosFrom (rows : List ImportRow) (fid : Nat → String)
    (fu : Nat → List Char) (s : String) :
    ∀ i, (asignadosFrom i rows fid fu).any (fun x => x.nombre_producto == s) =
      rows.any (fun row => row.nombre_producto == s) := by
  induction rows with
  | nil => intro i; rfl
  | cons r rs ih =>
    intro i
    simp only [asignadosFrom, List.any_cons, ih (i + 1)]
    rfl

/-- Keep-last deduplication of a concatenation whose left part has pairwise
distinct names: a left row survives exactly when its name is absent from the
right part, and the right part is deduplicated on its own. -/
lemma dedupKeepLast_append (l m : List InvRecord)
    (h : l.Pairwise (fun a b => a.nombre_producto ≠ b.nombre_producto)) :
    dedupKeepLast (l ++ m) =
      l.filter
        (fun e => !(m.any (fun x => x.nombre_producto == e.nombre_producto))) ++
      dedupKeepLast m := by
  induction l with
  | nil => simp
  | cons a as ih =>
    rw [List.pairwise_cons] at h
    have hnot : as.any (fun x => x.nombre_producto == a.nombre_producto) = false := by
      rw [List.any_eq_false]
      intro x hx
      simpa using (h.1 x hx).symm
    cases hm : m.any (fun x => x.nombre_producto == a.nombre_producto) with
    | true =>
      simp [dedupKeepLast, List.any_append, hnot, hm, List.filter_cons, ih h.2]
    | false =>
      simp [dedupKeepLast, List.any_append, hnot, hm, List.filter_cons, ih h.2]

/-- C7 counterexample: with two existing rows both named `A` and an empty
import, the merge deletes the earlier existing row even though its name
appears in no imported record — refuting the claim that every existing row
whose name is absent from the imports is unchanged. -/
theorem carga_masiva_merge_counterexample :
    rA1.nombre_producto = "A" ∧
    (∀ row ∈ ([] : List ImportRow), row.nombre_producto ≠ "A") ∧
    carga_masiva_merge [rA1, rA2] [] (fun _ => "") (fun _ => []) = [rA2] ∧
    rA1 ∉ carga_masiva_merge [rA1, rA2] [] (fun _ => "") (fun _ => []) := by
  refine ⟨rfl, by simp, by decide, by decide⟩

/-- C7 amended: the merge appends the prepared imported rows (fresh ids,
SKUs generated for blank cells) after the existing rows and deduplicates by
name keeping the last occurrence; provided the existing rows have pairwise
distinct names, an existing row survives unchanged exactly when its name
appears in no imported row, and the imported rows (deduplicated among
themselves, last occurrence winning) replace the colliding existing rows. -/
theorem carga_masiva_merge_amended
    (existing : List InvRecord) (rows : List ImportRow)
    (freshId : Nat → String) (freshU : Nat → List Char)
    (hdist : existing.Pairwise (fun a b => a.nombre_producto ≠ b.nombre_producto)) :
    carga_masiva_merge existing rows freshId freshU =
      existing.filter
        (fun e => !(rows.any (fun row => row.nombre_producto == e.nombre_producto))) ++
      dedupKeepLast (asignados rows freshId freshU) := by
  rw [carga_masiva_merge, dedupKeepLast_append _ _ hdist]
  congr 1
  apply List.filter_congr
  intro e _
  rw [asignados, any_asignadosFrom]

/-- Witness for C7's amended claim: importing a row named `X` over distinct
existing rows `X` and `Y` replaces `X` entirely (all fields from the import,
fresh id) and leaves `Y` unchanged. -/
theorem carga_masiva_merge_amended_witness :
    carga_masiva_merge [rX, rY] [impX] (fun _ => "fid") (fun _ => ['z']) =
      ([rX, rY].filter
        (fun e => !([impX].any (fun row => row.nombre_producto == e.nombre_producto)))) ++
      dedupKeepLast (asignados [impX] (fun _ => "fid") (fun _ => ['z'])) ∧
    carga_masiva_merge [rX, rY] [impX] (fun _ => "fid") (fun _ => ['z']) =
      [rY,
       { id_producto := "fid", codigo_sku := "NEW-X", nombre_producto := "X",
         cantidad_actual := 7, costo_unitario := .PInt 9, precio_base := .PInt 9,
         precio_publico := .PInt 9, ubicacion_fisica := "t" }] :=
  ⟨carga_masiva_merge_amended [rX, rY] [impX] (fun _ => "fid") (fun _ => ['z'])
      (by decide),
   by decide⟩

end AppMartin
